import Mathlib

/-!
Shallow embedding of the LNK forensic parser
(`src/app/analyzers/static/lnk_parser.py`, class `LnkForensics`).

Buffers are lists of byte values (`List Nat`).  The Python read cursor is an
`Int`, because the source adds signed 32-bit fields (e.g. `LinkInfoSize`) to
it, so it can go negative.  Python slicing `data[a:b]` never reads out of
bounds: negative endpoints index from the end and everything is clamped;
`pySlice` reproduces that.  `struct.unpack` demands an exactly-sized buffer
and raises `struct.error` otherwise; `unpackN`/`unpackI` return `none` in
that case.  Python indexing `data[i]` accepts `-len ≤ i < len` and raises
`IndexError` otherwise; `pyGet` returns `none` for the raising case.
-/

namespace LnkForensics

/-- Clamp one endpoint of a Python slice: negative values count from the end
of the sequence, and everything is clamped into `[0, len]`. -/
def pyBound (len : Nat) (i : Int) : Nat :=
  if i < 0 then ((len : Int) + i).toNat else min i.toNat len

/-- Python slice `data[a:b]` (step 1): bounds-clamped, never out of range. -/
def pySlice (data : List Nat) (a b : Int) : List Nat :=
  let s := pyBound data.length a
  let e := pyBound data.length b
  (data.drop s).take (e - s)

/-- Python indexing `data[i]`: negative indices count from the end;
`none` models the `IndexError` raised when `i < -len` or `i ≥ len`. -/
def pyGet (data : List Nat) (i : Int) : Option Nat :=
  if 0 ≤ i ∧ i < (data.length : Int) then data.get? i.toNat
  else if -(data.length : Int) ≤ i ∧ i < 0 then data.get? ((data.length : Int) + i).toNat
  else none

/-- Little-endian value of a byte list (how `struct.unpack('<…')` reads). -/
def leNat : List Nat → Nat
  | [] => 0
  | b :: bs => b + 256 * leNat bs

/-- Reinterpret an unsigned `w`-bit value as two's-complement signed
(`struct.unpack` with a signed format such as `<i` or `<q`). -/
def toSigned (w : Nat) (v : Nat) : Int :=
  if v < 2 ^ (w - 1) then (v : Int) else (v : Int) - 2 ^ w

/-- Unsigned `struct.unpack` of `width` bytes at offset `i`:
`none` models `struct.error` (the slice does not have exactly `width`
bytes), as raised by `struct.unpack('<H')` / `struct.unpack('<I')`. -/
def unpackN (width : Nat) (data : List Nat) (i : Int) : Option Nat :=
  let s := pySlice data i (i + (width : Int))
  if s.length = width then some (leNat s) else none

/-- Signed `struct.unpack` (`<i` for width 4, `<q` for width 8). -/
def unpackI (width : Nat) (data : List Nat) (i : Int) : Option Int :=
  (unpackN width data i).map (toSigned width)

/-- Python `x & m` for an arbitrary-precision signed `x` and a mask
`0 ≤ m < 2^32`: two's complement bitwise and, which for such masks equals
`(x mod 2^32) & m`.  The source applies masks below `2^32` to values
decoded with `struct.unpack('<i')`. -/
def bitf (x : Int) (m : Nat) : Bool :=
  ((x % 4294967296).toNat &&& m) != 0

/-- Embedding of `LnkForensics._clean_line`: keep bytes in the printable
range `20 < b < 128` and join their characters. -/
def clean_line (l : List Nat) : String :=
  String.mk ((l.filter (fun i => 20 < i && i < 128)).map Char.ofNat)

/-- ASCII whitespace stripped by Python `str.strip()`. -/
def pyWhitespace (c : Char) : Bool :=
  c = ' ' || c = '\t' || c = '\n' || c = '\x0b' || c = '\x0c' || c = '\r'

/-- Python `str.strip()`: drop whitespace from both ends. -/
def pyStrip (s : String) : String :=
  String.mk (((s.toList.dropWhile pyWhitespace).reverse.dropWhile pyWhitespace).reverse)

/-- Lowercase hex of one byte, two digits (`bytes.hex()` renders each byte
this way). -/
def byteHex (b : Nat) : List Char :=
  [Nat.digitChar (b / 16), Nat.digitChar (b % 16)]

/-- Embedding of Python `bytes.hex()`. -/
def bytesToHex (l : List Nat) : String :=
  String.mk (l.flatMap byteHex)

/-- Embedding of Python `hex(v)` on a signed int: `0x…` lowercase without
padding, with a leading `-` for negatives. -/
def pyHexInt (v : Int) : String :=
  (if v < 0 then "-0x" else "0x") ++ String.mk (Nat.toDigits 16 v.natAbs)

/-- Left-pad a string with zeros to width `w` (Python `f"{n:0Nd}"` /
`f"{n:08X}"` style padding). -/
def padZeros (s : String) (w : Nat) : String :=
  if s.length ≥ w then s else String.mk (List.replicate (w - s.length) '0') ++ s

/-- Uppercase hex digits of a natural number (Python `X` format). -/
def natHexUpper (n : Nat) : String :=
  String.mk ((Nat.toDigits 16 n).map Char.toUpper)

/-- Embedding of Python `f"0x{v:08X}"` on a signed int: width 8 counts the
sign character for negative values. -/
def fmt0x08X (v : Int) : String :=
  if v < 0 then "0x" ++ "-" ++ padZeros (natHexUpper v.natAbs) 7
  else "0x" ++ padZeros (natHexUpper v.toNat) 8

/-- Fixed table `LnkForensics.DRIVE_TYPES`. -/
def DRIVE_TYPES : List String :=
  ["DRIVE_UNKNOWN", "DRIVE_NO_ROOT_DIR", "DRIVE_REMOVABLE",
   "DRIVE_FIXED", "DRIVE_REMOTE", "DRIVE_CDROM", "DRIVE_RAMDISK"]

/-- Fixed table `LnkForensics.WINDOWSTYLES`. -/
def WINDOWSTYLES : List String :=
  ["SW_HIDE", "SW_NORMAL", "SW_SHOWMINIMIZED", "SW_MAXIMIZE",
   "SW_SHOWNOACTIVATE", "SW_SHOW", "SW_MINIMIZE", "SW_SHOWMINNOACTIVE",
   "SW_SHOWNA", "SW_RESTORE", "SW_SHOWDEFAULT"]

/-- The `windowstyle` header entry holds either a mapped style name or, for
out-of-range codes, the raw integer (the Python dict value is `str | int`). -/
inductive WindowStyle where
  | name (s : String) : WindowStyle
  | raw (v : Int) : WindowStyle
deriving DecidableEq, Repr

/-- The fixed 76-byte header record built by `_parse_lnk_header`. -/
structure LnkHeader where
  header_size : Nat
  guid : String
  rlinkFlags : Int
  rfileFlags : Int
  creation_time : Int
  accessed_time : Int
  modified_time : Int
  file_size : Int
  icon_index : Nat
  windowstyle : WindowStyle
  hotkey : Nat
  reserved0 : Nat
  reserved1 : Int
  reserved2 : Int
deriving DecidableEq, Repr

/-- Embedding of `LnkForensics._parse_lnk_header`.  Returns `none` exactly
when the source returns `False`: buffer shorter than 76 bytes, or a first
4-byte word different from 76.  Under the 76-byte length guard every
`struct.unpack` inside the source body operates on an exactly-sized slice of
`indata[:76]`, so the `except` branch of the source is unreachable and all
fields are decoded directly.  (The source stores `header_size` into its dict
before the 76-check; that partial dict is observable only through accessors
gated on parse success, which are modelled below.) -/
def parse_lnk_header (data : List Nat) : Option LnkHeader :=
  if data.length < 76 then none
  else
    let hsz := leNat (pySlice data 0 4)
    if hsz ≠ 76 then none
    else
      let h := pySlice data 0 76
      let wsv := toSigned 32 (leNat (pySlice h 60 64))
      some {
        header_size := hsz
        guid := bytesToHex (pySlice h 4 20)
        rlinkFlags := toSigned 32 (leNat (pySlice h 20 24))
        rfileFlags := toSigned 32 (leNat (pySlice h 24 28))
        creation_time := toSigned 64 (leNat (pySlice h 28 36))
        accessed_time := toSigned 64 (leNat (pySlice h 36 44))
        modified_time := toSigned 64 (leNat (pySlice h 44 52))
        file_size := toSigned 32 (leNat (pySlice h 52 56))
        icon_index := leNat (pySlice h 56 60)
        windowstyle :=
          if 0 ≤ wsv ∧ wsv < 11 then WindowStyle.name (WINDOWSTYLES.getD wsv.toNat "")
          else WindowStyle.raw wsv
        hotkey := leNat (pySlice h 64 66)
        reserved0 := leNat (pySlice h 66 68)
        reserved1 := toSigned 32 (leNat (pySlice h 68 72))
        reserved2 := toSigned 32 (leNat (pySlice h 72 76))
      }

/-- The named link-flag booleans produced by `_parse_link_flags`, in the
source dict's insertion order. -/
structure LinkFlags where
  HasTargetIDList : Bool := false
  HasLinkInfo : Bool := false
  HasName : Bool := false
  HasRelativePath : Bool := false
  HasWorkingDir : Bool := false
  HasArguments : Bool := false
  HasIconLocation : Bool := false
  IsUnicode : Bool := false
  ForceNoLinkInfo : Bool := false
  HasExpString : Bool := false
  RunInSeparateProcess : Bool := false
  HasDarwinID : Bool := false
  RunAsUser : Bool := false
  HasExpIcon : Bool := false
  NoPidlAlias : Bool := false
  RunWithShimLayer : Bool := false
  ForceNoLinkTrack : Bool := false
  EnableTargetMetadata : Bool := false
  DisableLinkPathTracking : Bool := false
  DisableKnownFolderTracking : Bool := false
  DisableKnownFolderAlias : Bool := false
  AllowLinkToLink : Bool := false
  UnaliasOnSave : Bool := false
  PreferEnvironmentPath : Bool := false
  KeepLocalIDListForUNCTarget : Bool := false
deriving DecidableEq, Repr

/-- Embedding of `LnkForensics._parse_link_flags`. -/
def parse_link_flags (flags : Int) : LinkFlags where
  HasTargetIDList := bitf flags 0x00000001
  HasLinkInfo := bitf flags 0x00000002
  HasName := bitf flags 0x00000004
  HasRelativePath := bitf flags 0x00000008
  HasWorkingDir := bitf flags 0x00000010
  HasArguments := bitf flags 0x00000020
  HasIconLocation := bitf flags 0x00000040
  IsUnicode := bitf flags 0x00000080
  ForceNoLinkInfo := bitf flags 0x00000100
  HasExpString := bitf flags 0x00000200
  RunInSeparateProcess := bitf flags 0x00000400
  HasDarwinID := bitf flags 0x00001000
  RunAsUser := bitf flags 0x00002000
  HasExpIcon := bitf flags 0x00004000
  NoPidlAlias := bitf flags 0x00008000
  RunWithShimLayer := bitf flags 0x00020000
  ForceNoLinkTrack := bitf flags 0x00040000
  EnableTargetMetadata := bitf flags 0x00080000
  DisableLinkPathTracking := bitf flags 0x00100000
  DisableKnownFolderTracking := bitf flags 0x00200000
  DisableKnownFolderAlias := bitf flags 0x00400000
  AllowLinkToLink := bitf flags 0x00800000
  UnaliasOnSave := bitf flags 0x01000000
  PreferEnvironmentPath := bitf flags 0x02000000
  KeepLocalIDListForUNCTarget := bitf flags 0x04000000

/-- The named file-attribute booleans produced by `_parse_file_flags`, in
the source dict's insertion order. -/
structure FileFlags where
  FILE_ATTRIBUTE_READONLY : Bool := false
  FILE_ATTRIBUTE_HIDDEN : Bool := false
  FILE_ATTRIBUTE_SYSTEM : Bool := false
  FILE_ATTRIBUTE_DIRECTORY : Bool := false
  FILE_ATTRIBUTE_ARCHIVE : Bool := false
  FILE_ATTRIBUTE_DEVICE : Bool := false
  FILE_ATTRIBUTE_NORMAL : Bool := false
  FILE_ATTRIBUTE_TEMPORARY : Bool := false
  FILE_ATTRIBUTE_SPARSE_FILE : Bool := false
  FILE_ATTRIBUTE_REPARSE_POINT : Bool := false
  FILE_ATTRIBUTE_COMPRESSED : Bool := false
  FILE_ATTRIBUTE_OFFLINE : Bool := false
  FILE_ATTRIBUTE_NOT_CONTENT_INDEXED : Bool := false
  FILE_ATTRIBUTE_ENCRYPTED : Bool := false
  FILE_ATTRIBUTE_VIRTUAL : Bool := false
deriving DecidableEq, Repr

/-- Embedding of `LnkForensics._parse_file_flags`. -/
def parse_file_flags (flags : Int) : FileFlags where
  FILE_ATTRIBUTE_READONLY := bitf flags 0x00000001
  FILE_ATTRIBUTE_HIDDEN := bitf flags 0x00000002
  FILE_ATTRIBUTE_SYSTEM := bitf flags 0x00000004
  FILE_ATTRIBUTE_DIRECTORY := bitf flags 0x00000010
  FILE_ATTRIBUTE_ARCHIVE := bitf flags 0x00000020
  FILE_ATTRIBUTE_DEVICE := bitf flags 0x00000040
  FILE_ATTRIBUTE_NORMAL := bitf flags 0x00000080
  FILE_ATTRIBUTE_TEMPORARY := bitf flags 0x00000100
  FILE_ATTRIBUTE_SPARSE_FILE := bitf flags 0x00000200
  FILE_ATTRIBUTE_REPARSE_POINT := bitf flags 0x00000400
  FILE_ATTRIBUTE_COMPRESSED := bitf flags 0x00000800
  FILE_ATTRIBUTE_OFFLINE := bitf flags 0x00001000
  FILE_ATTRIBUTE_NOT_CONTENT_INDEXED := bitf flags 0x00002000
  FILE_ATTRIBUTE_ENCRYPTED := bitf flags 0x00004000
  FILE_ATTRIBUTE_VIRTUAL := bitf flags 0x00010000

/-- Embedding of `_get_enabled_flags` applied to the link-flags dict: the
names of the set flags in insertion order. -/
def enabled_link_flags (f : LinkFlags) : List String :=
  ([("HasTargetIDList", f.HasTargetIDList), ("HasLinkInfo", f.HasLinkInfo),
    ("HasName", f.HasName), ("HasRelativePath", f.HasRelativePath),
    ("HasWorkingDir", f.HasWorkingDir), ("HasArguments", f.HasArguments),
    ("HasIconLocation", f.HasIconLocation), ("IsUnicode", f.IsUnicode),
    ("ForceNoLinkInfo", f.ForceNoLinkInfo), ("HasExpString", f.HasExpString),
    ("RunInSeparateProcess", f.RunInSeparateProcess), ("HasDarwinID", f.HasDarwinID),
    ("RunAsUser", f.RunAsUser), ("HasExpIcon", f.HasExpIcon),
    ("NoPidlAlias", f.NoPidlAlias), ("RunWithShimLayer", f.RunWithShimLayer),
    ("ForceNoLinkTrack", f.ForceNoLinkTrack), ("EnableTargetMetadata", f.EnableTargetMetadata),
    ("DisableLinkPathTracking", f.DisableLinkPathTracking),
    ("DisableKnownFolderTracking", f.DisableKnownFolderTracking),
    ("DisableKnownFolderAlias", f.DisableKnownFolderAlias),
    ("AllowLinkToLink", f.AllowLinkToLink), ("UnaliasOnSave", f.UnaliasOnSave),
    ("PreferEnvironmentPath", f.PreferEnvironmentPath),
    ("KeepLocalIDListForUNCTarget", f.KeepLocalIDListForUNCTarget)]).filterMap
    (fun p => if p.2 then some p.1 else none)

/-- Embedding of `_get_enabled_flags` applied to the file-attribute dict. -/
def enabled_file_flags (f : FileFlags) : List String :=
  ([("FILE_ATTRIBUTE_READONLY", f.FILE_ATTRIBUTE_READONLY),
    ("FILE_ATTRIBUTE_HIDDEN", f.FILE_ATTRIBUTE_HIDDEN),
    ("FILE_ATTRIBUTE_SYSTEM", f.FILE_ATTRIBUTE_SYSTEM),
    ("FILE_ATTRIBUTE_DIRECTORY", f.FILE_ATTRIBUTE_DIRECTORY),
    ("FILE_ATTRIBUTE_ARCHIVE", f.FILE_ATTRIBUTE_ARCHIVE),
    ("FILE_ATTRIBUTE_DEVICE", f.FILE_ATTRIBUTE_DEVICE),
    ("FILE_ATTRIBUTE_NORMAL", f.FILE_ATTRIBUTE_NORMAL),
    ("FILE_ATTRIBUTE_TEMPORARY", f.FILE_ATTRIBUTE_TEMPORARY),
    ("FILE_ATTRIBUTE_SPARSE_FILE", f.FILE_ATTRIBUTE_SPARSE_FILE),
    ("FILE_ATTRIBUTE_REPARSE_POINT", f.FILE_ATTRIBUTE_REPARSE_POINT),
    ("FILE_ATTRIBUTE_COMPRESSED", f.FILE_ATTRIBUTE_COMPRESSED),
    ("FILE_ATTRIBUTE_OFFLINE", f.FILE_ATTRIBUTE_OFFLINE),
    ("FILE_ATTRIBUTE_NOT_CONTENT_INDEXED", f.FILE_ATTRIBUTE_NOT_CONTENT_INDEXED),
    ("FILE_ATTRIBUTE_ENCRYPTED", f.FILE_ATTRIBUTE_ENCRYPTED),
    ("FILE_ATTRIBUTE_VIRTUAL", f.FILE_ATTRIBUTE_VIRTUAL)]).filterMap
    (fun p => if p.2 then some p.1 else none)

/-- One step-indexed layer of `LnkForensics._read_string` (the
null-terminated byte scan).  The outer `none` marks exhausted fuel — with
the fuel chosen in `read_string` it never occurs, since the loop index
strictly increases towards `data.length`.  `some none` is the `IndexError`
raised when the scan touches `data[i]` with `i < -len`; `some (some s)` is
the returned string. -/
def read_string_fuel : Nat → List Nat → Int → Option (Option String)
  | 0, _, _ => none
  | fuel + 1, data, index =>
    if index < (data.length : Int) then
      match pyGet data index with
      | none => some none
      | some b =>
        if b ≠ 0 then
          match read_string_fuel fuel data (index + 1) with
          | some (some s) => some (some (String.mk [Char.ofNat b] ++ s))
          | r => r
        else some (some "")
    else some (some "")

/-- Embedding of `LnkForensics._read_string`: scan bytes from `index` until
a zero byte or the end of the buffer; `none` is the uncaught `IndexError`
for a start index below `-len`. -/
def read_string (data : List Nat) (index : Int) : Option String :=
  (read_string_fuel (((data.length : Int) - index).toNat + 1) data index).getD none

/-- Embedding of `LnkForensics._read_string_data` (the length-prefixed
string read).  Mirrors the source exactly: bail out with the original index
when even the 2-byte prefix is past the end; treat a failed `struct.unpack`
as the caught exception path `(index + 2, "")`; bail out with `(index + 2,
"")` when the declared span `prefix * u_mult` overruns the buffer; otherwise
strip zero bytes (`.replace(b'\x00', b'')`), clean, and advance past the
whole declared span. -/
def read_string_data (data : List Nat) (index : Int) (u_mult : Nat) : Int × String :=
  if index + 2 > (data.length : Int) then (index, "")
  else
    match unpackN 2 data index with
    | none => (index + 2, "")
    | some v =>
      let string_size : Nat := v * u_mult
      if index + 2 + (string_size : Int) > (data.length : Int) then (index + 2, "")
      else
        let s := clean_line ((pySlice data (index + 2) (index + 2 + (string_size : Int))).filter (fun b => b ≠ 0))
        (index + (string_size : Int) + 2, s)

/-- The seven fixed fields of the LinkInfo header read at the start of the
LinkInfo region (all `struct.unpack('<i')`). -/
structure LocHeader where
  LinkInfoSize : Int
  LinkInfoHeaderSize : Int
  LinkInfoFlags : Int
  VolumeIDOffset : Int
  LocalBasePathOffset : Int
  CommonNetworkRelativeLinkOffset : Int
  CommonPathSuffixOffset : Int
deriving DecidableEq, Repr

/-- Read the seven LinkInfo header fields; `none` when any unpack raises
(the Python dict literal is assigned atomically, so a failure leaves the
region dict empty). -/
def parse_loc_header (data : List Nat) (index : Int) : Option LocHeader := do
  let a ← unpackI 4 data index
  let b ← unpackI 4 data (index + 4)
  let c ← unpackI 4 data (index + 8)
  let d ← unpackI 4 data (index + 12)
  let e ← unpackI 4 data (index + 16)
  let f ← unpackI 4 data (index + 20)
  let g ← unpackI 4 data (index + 24)
  return { LinkInfoSize := a, LinkInfoHeaderSize := b, LinkInfoFlags := c,
           VolumeIDOffset := d, LocalBasePathOffset := e,
           CommonNetworkRelativeLinkOffset := f, CommonPathSuffixOffset := g }

/-- The `VolumeIDAndLocalBasePath` sub-dict: four unpacked fields plus the
conditionally added `DriveType` name and `VolumeLabel`. -/
structure VolumeInfo where
  VolumeIDSize : Int
  rDriveType : Int
  DriveSerialNumber : String
  VolumeLabelOffset : Int
  DriveType : Option String := none
  VolumeLabel : Option String := none
deriving DecidableEq, Repr

/-- Read the four fixed `VolumeIDAndLocalBasePath` fields at `local_index`;
`none` when an unpack raises (dict literal assigned atomically). -/
def parse_volume_id (data : List Nat) (local_index : Int) : Option VolumeInfo := do
  let a ← unpackI 4 data local_index
  let b ← unpackI 4 data (local_index + 4)
  let c ← unpackI 4 data (local_index + 8)
  let d ← unpackI 4 data (local_index + 12)
  return { VolumeIDSize := a, rDriveType := b, DriveSerialNumber := pyHexInt c,
           VolumeLabelOffset := d }

/-- The `CommonNetworkRelativeLinkAndPathSuffix` sub-dict. -/
structure NetworkInfo where
  CommonNetworkRelativeLinkSize : Int
  CommonNetworkRelativeLinkFlags : Int
  NetNameOffset : Int
  DeviceNameOffset : Int
  NetworkProviderType : Int
deriving DecidableEq, Repr

/-- Read the five `CommonNetworkRelativeLinkAndPathSuffix` fields;
`none` when an unpack raises. -/
def parse_network (data : List Nat) (local_index : Int) : Option NetworkInfo := do
  let a ← unpackI 4 data local_index
  let b ← unpackI 4 data (local_index + 4)
  let c ← unpackI 4 data (local_index + 8)
  let d ← unpackI 4 data (local_index + 12)
  let e ← unpackI 4 data (local_index + 16)
  return { CommonNetworkRelativeLinkSize := a, CommonNetworkRelativeLinkFlags := b,
           NetNameOffset := c, DeviceNameOffset := d, NetworkProviderType := e }

/-- State of the `loc_information` dict: the seven header fields, the
optional `LocalBasePath` string, and the two optional sub-dicts.  Every
field is `none` while its key is absent from the dict. -/
structure LocInfo where
  header : Option LocHeader := none
  localBasePath : Option String := none
  volume : Option VolumeInfo := none
  network : Option NetworkInfo := none
deriving DecidableEq, Repr

/-- Conditional `LocalBasePath` read of the LinkInfo region: performed only
when its declared offset is non-zero; the outer `none` is the uncaught
`IndexError` escaping `_read_string`, the inner option is the dict key
state. -/
def local_base_path_read (data : List Nat) (index : Int) (h : LocHeader) : Option (Option String) :=
  if h.LocalBasePathOffset ≠ 0 then
    match read_string data (index + h.LocalBasePathOffset) with
    | none => none
    | some s => some (some s)
  else some none

/-- Add the `DriveType` name when the raw drive-type code indexes the
7-entry table (the source's in-range check before `DRIVE_TYPES[...]`). -/
def volume_with_drive_type (vol0 : VolumeInfo) : VolumeInfo :=
  if 0 ≤ vol0.rDriveType ∧ vol0.rDriveType < 7 then
    { vol0 with DriveType := some (DRIVE_TYPES.getD vol0.rDriveType.toNat "") }
  else vol0

/-- Add the `VolumeLabel` when `VolumeLabelOffset ≠ 20` and the label span
passes the explicit in-bounds check of the source (a failing check silently
skips the label; the slice/clean path is total). -/
def volume_with_label (data : List Nat) (index : Int) (h : LocHeader) (vol1 : VolumeInfo) : VolumeInfo :=
  if vol1.VolumeLabelOffset ≠ 20 then
    let length := vol1.VolumeIDSize - vol1.VolumeLabelOffset
    let label_index := index + h.VolumeIDOffset + vol1.VolumeLabelOffset
    if label_index + length ≤ (data.length : Int) then
      { vol1 with VolumeLabel := some (clean_line ((pySlice data label_index (label_index + length)).filter (fun b => b ≠ 0))) }
    else vol1
  else vol1

/-- Embedding of the LinkInfo region of `LnkForensics._parse` (the body of
the `try` under `HasLinkInfo and not ForceNoLinkInfo`).  Any raising step
(`LocalBasePath` read before the volume dict, in source order) corresponds
to the source's blanket `except: pass`: decoding stops, fields already
assigned stay assigned, and — because `index += LinkInfoSize` is the last
statement of the `try` — the cursor is left unchanged on any failure.
Returns the region dict state and the new cursor. -/
def parse_link_info (data : List Nat) (index : Int) : LocInfo × Int :=
  match parse_loc_header data index with
  | none => ({}, index)
  | some h =>
    if bitf h.LinkInfoFlags 0x0001 then
      match local_base_path_read data index h with
      | none => ({ header := some h }, index)
      | some lbp =>
        match parse_volume_id data (index + h.VolumeIDOffset) with
        | none => ({ header := some h, localBasePath := lbp }, index)
        | some vol0 =>
          ({ header := some h, localBasePath := lbp,
             volume := some (volume_with_label data index h (volume_with_drive_type vol0)) },
           index + h.LinkInfoSize)
    else if bitf h.LinkInfoFlags 0x0002 then
      match parse_network data (index + h.CommonNetworkRelativeLinkOffset) with
      | none => ({ header := some h }, index)
      | some net => ({ header := some h, network := some net }, index + h.LinkInfoSize)
    else ({ header := some h }, index + h.LinkInfoSize)

/-- The five optional flag-gated strings stored in `self.data`; `none`
while the corresponding key is absent. -/
structure StringData where
  description : Option String := none
  relativePath : Option String := none
  workingDirectory : Option String := none
  commandLineArguments : Option String := none
  iconLocation : Option String := none
deriving DecidableEq, Repr

/-- Embedding of the string-data section of `LnkForensics._parse`: the five
fields in fixed order, each gated by its own link flag, each threading the
shared cursor.  `_read_string_data` is total (its body catches its own
exceptions), so the section's enclosing `try` never fires. -/
def parse_strings (data : List Nat) (index : Int) (u_mult : Nat) (lf : LinkFlags) : Int × StringData :=
  let st0 : StringData := {}
  let p1 := if lf.HasName then
      let r := read_string_data data index u_mult
      (r.1, { st0 with description := some r.2 })
    else (index, st0)
  let p2 := if lf.HasRelativePath then
      let r := read_string_data data p1.1 u_mult
      (r.1, { p1.2 with relativePath := some r.2 })
    else p1
  let p3 := if lf.HasWorkingDir then
      let r := read_string_data data p2.1 u_mult
      (r.1, { p2.2 with workingDirectory := some r.2 })
    else p2
  let p4 := if lf.HasArguments then
      let r := read_string_data data p3.1 u_mult
      (r.1, { p3.2 with commandLineArguments := some r.2 })
    else p3
  let p5 := if lf.HasIconLocation then
      let r := read_string_data data p4.1 u_mult
      (r.1, { p4.2 with iconLocation := some r.2 })
    else p4
  p5

/-- The `DISTRIBUTED_LINK_TRACKER_BLOCK` entry of `self.extraBlocks`. -/
structure TrackerBlock where
  size : Nat
  version : Nat
  machine_identifier : String
  droid_volume_identifier : String
  droid_file_identifier : String
  birth_droid_volume_identifier : String
  birth_droid_file_identifier : String
deriving DecidableEq, Repr

/-- The `ENVIRONMENTAL_VARIABLES_LOCATION_BLOCK` entry of
`self.extraBlocks`. -/
structure EnvBlock where
  size : Nat
  variable_location : String
deriving DecidableEq, Repr

/-- State of the `self.extraBlocks` dict (only the two semantically decoded
signatures are ever inserted by the source). -/
structure ExtraBlocks where
  tracker : Option TrackerBlock := none
  env : Option EnvBlock := none
deriving DecidableEq, Repr

/-- Embedding of `_parse_distributed_tracker_block`: the dict literal
evaluates its two unpacks first; if either raises, the blanket `except`
leaves the dict entry unassigned (`none` here).  The slice/hex/clean parts
are total. -/
def parse_distributed_tracker_block (data : List Nat) (index : Int) : Option TrackerBlock := do
  let sz ← unpackN 4 data (index + 8)
  let ver ← unpackN 4 data (index + 12)
  return { size := sz, version := ver,
           machine_identifier := clean_line (pySlice data (index + 16) (index + 32)),
           droid_volume_identifier := bytesToHex (pySlice data (index + 32) (index + 48)),
           droid_file_identifier := bytesToHex (pySlice data (index + 48) (index + 64)),
           birth_droid_volume_identifier := bytesToHex (pySlice data (index + 64) (index + 80)),
           birth_droid_file_identifier := bytesToHex (pySlice data (index + 80) (index + 96)) }

/-- Embedding of `_parse_environment_block`: slicing and cleaning are total,
so this decoder always succeeds. -/
def parse_environment_block (data : List Nat) (index : Int) (size : Nat) : EnvBlock :=
  { size := size,
    variable_location := clean_line (pySlice data (index + 8) (index + 8 + (size : Int))) }

/-- Signature dispatch of the extra-block walk: the source renders the
4-byte signature word with `hex(...)` (lowercase, unpadded, no `0x` after
the `[2:]` slice) and looks it up among `a0000001` / `a0000003`. -/
def dispatch_block (data : List Nat) (index : Int) (size : Nat) (sig : Nat)
    (blocks : ExtraBlocks) : ExtraBlocks :=
  let sigStr := String.mk (Nat.toDigits 16 sig)
  if sigStr = "a0000001" then
    { blocks with env := some (parse_environment_block data index size) }
  else if sigStr = "a0000003" then
    match parse_distributed_tracker_block data index with
    | some tb => { blocks with tracker := some tb }
    | none => blocks
  else blocks

/-- Step-indexed extra-block walk of `LnkForensics._parse`: while at least
10 bytes remain from the cursor, unpack a 4-byte size (failure breaks),
stop if it is below 4, unpack the 4-byte signature (failure breaks),
dispatch a recognized signature, and always advance by the declared size.
`none` marks exhausted fuel; `parse_extra_blocks` supplies fuel that
provably suffices because every iteration advances the cursor by at least
4. -/
def parse_extra_blocks_fuel : Nat → List Nat → Int → ExtraBlocks → Option ExtraBlocks
  | 0, _, _, _ => none
  | fuel + 1, data, index, blocks =>
    if index ≤ (data.length : Int) - 10 then
      match unpackN 4 data index with
      | none => some blocks
      | some size =>
        if size < 4 then some blocks
        else
          match unpackN 4 data (index + 4) with
          | none => some blocks
          | some sig =>
            parse_extra_blocks_fuel fuel data (index + (size : Int))
              (dispatch_block data index size sig blocks)
    else some blocks

/-- Fuel that always suffices for the extra-block walk from `index`. -/
def extra_blocks_fuel_bound (data : List Nat) (index : Int) : Nat :=
  ((data.length : Int) - 10 - index + 4).toNat + 1

/-- Embedding of the extra-block walk with its sufficient fuel. -/
def parse_extra_blocks (data : List Nat) (index : Int) (blocks : ExtraBlocks) : ExtraBlocks :=
  (parse_extra_blocks_fuel (extra_blocks_fuel_bound data index) data index blocks).getD blocks

/-- Unix-seconds range accepted by `datetime.fromtimestamp` with the
process timezone UTC: civil years 1 through 9999
(`0001-01-01 00:00:00` to `9999-12-31 23:59:59`). -/
def fromtimestampMin : Int := -62135596800

/-- Upper end of the `datetime.fromtimestamp` range (see
`fromtimestampMin`). -/
def fromtimestampMax : Int := 253402300799

/-- Proleptic-Gregorian civil date of a day count relative to 1970-01-01
(floor division throughout; Lean's `Int` `/` and `%` are Euclidean, which
for the positive divisors used here is floor division, matching
Python's `//`). -/
def civilFromDays (z0 : Int) : Int × Int × Int :=
  let z := z0 + 719468
  let era := z / 146097
  let doe := z - era * 146097
  let yoe := (doe - doe / 1460 + doe / 36524 - doe / 146096) / 365
  let y := yoe + era * 400
  let doy := doe - (365 * yoe + yoe / 4 - yoe / 100)
  let mp := (5 * doy + 2) / 153
  let d := doy - (153 * mp + 2) / 5 + 1
  let m := if mp < 10 then mp + 3 else mp - 9
  (if m ≤ 2 then y + 1 else y, m, d)

/-- Python `strftime('%Y-%m-%d %H:%M:%S')` of a UTC unix-seconds value. -/
def strftime_ymd_hms (secs : Int) : String :=
  let days := secs / 86400
  let rem := secs % 86400
  let c := civilFromDays days
  padZeros (toString c.1.toNat) 4 ++ "-" ++ padZeros (toString c.2.1.toNat) 2 ++ "-" ++
    padZeros (toString c.2.2.toNat) 2 ++ " " ++ padZeros (toString (rem / 3600).toNat) 2 ++ ":" ++
    padZeros (toString ((rem % 3600) / 60).toNat) 2 ++ ":" ++ padZeros (toString (rem % 60).toNat) 2

/-- Embedding of `LnkForensics._ms_time_to_unix_time`:
`datetime.datetime.fromtimestamp(time / 10000000.0 - 11644473600)` rendered
with `strftime('%Y-%m-%d %H:%M:%S')`, and the caught-exception sentinel
string `"Invalid timestamp"` when `fromtimestamp` raises.  The source
divides in IEEE double arithmetic; this embedding uses exact integer floor
division, which agrees with the source whenever `time` is a multiple of
`10^7` whose quotient is below `2^53` (as in every witness below), and the
process timezone is taken as UTC (`fromtimestamp` uses local time). -/
def ms_time_to_unix_time (t : Int) : String :=
  if fromtimestampMin ≤ t / 10000000 - 11644473600 ∧
      t / 10000000 - 11644473600 ≤ fromtimestampMax then
    strftime_ymd_hms (t / 10000000 - 11644473600)
  else "Invalid timestamp"

/-- The whole parser object state after `__init__` ran `_parse` on
`indata`: the flag dicts, the decoded regions, and the outcome flags.
`raised` is the message of the `LnkForensicsError` that `_parse` re-raises
out of the constructor on header failure (`none` when `_parse` returned
normally). -/
structure LnkState where
  indata : List Nat
  parsed : Bool
  parse_error : Option String
  raised : Option String
  lnk_header : Option LnkHeader
  linkFlag : LinkFlags
  fileFlag : FileFlags
  strings : StringData
  loc_information : LocInfo
  extraBlocks : ExtraBlocks
deriving DecidableEq, Repr

/-- Embedding of `LnkForensics._parse`.  Header failure is fatal: the
source raises `LnkForensicsError("Invalid LNK header: None")` (the inner
`parse_error` is still `None` at that point since the header unpacks cannot
raise under the length guard), the outer handler stores that message and
re-raises with the `Parsing failed:` prefix.  After a valid header the body
always runs to `self.parsed = True`: the TargetIDList skip, the LinkInfo
region, the string section and the extra-block walk each catch their own
exceptions. -/
def parse (data : List Nat) : LnkState :=
  match parse_lnk_header data with
  | none =>
    { indata := data, parsed := false,
      parse_error := some "Invalid LNK header: None",
      raised := some "Parsing failed: Invalid LNK header: None",
      lnk_header := none, linkFlag := {}, fileFlag := {}, strings := {},
      loc_information := {}, extraBlocks := {} }
  | some hdr =>
    let lf := parse_link_flags hdr.rlinkFlags
    let ff := parse_file_flags hdr.rfileFlags
    let i0 : Int := (hdr.header_size : Int)
    let i1 : Int :=
      if lf.HasTargetIDList then
        match unpackN 2 data i0 with
        | some ts => i0 + 2 + (ts : Int)
        | none => i0
      else i0
    let locRes :=
      if lf.HasLinkInfo && !lf.ForceNoLinkInfo then parse_link_info data i1
      else ({}, i1)
    let u_mult : Nat := if lf.IsUnicode then 2 else 1
    let strRes := parse_strings data locRes.2 u_mult lf
    let blocks := parse_extra_blocks data strRes.1 {}
    { indata := data, parsed := true, parse_error := none, raised := none,
      lnk_header := some hdr, linkFlag := lf, fileFlag := ff,
      strings := strRes.2, loc_information := locRes.1, extraBlocks := blocks }

/-- Embedding of the `raw_data` constructor path of
`LnkForensics.__init__`: Python tests the input sources for truthiness, so
empty bytes fall through every branch and raise the missing-input
`LnkForensicsError`; otherwise `_parse` runs and its `LnkForensicsError`
(if any) propagates out of the constructor. -/
def lnkForensics_raw (raw_data : List Nat) : Except String LnkState :=
  if raw_data = [] then Except.error "Must provide file_path, file_handle, or raw_data"
  else
    let st := parse raw_data
    match st.raised with
    | some e => Except.error e
    | none => Except.ok st

/-- Embedding of `LnkForensics.is_valid`. -/
def is_valid (st : LnkState) : Bool :=
  st.parsed && st.parse_error.isNone

/-- Embedding of `LnkForensics.get_error`. -/
def get_error (st : LnkState) : Option String :=
  st.parse_error

/-- Embedding of `LnkForensics.get_target_command`: empty string when the
parse did not succeed; otherwise the relative path (when flagged and
present) concatenated with a space and the arguments (when flagged and
present), with `str.strip()` applied. -/
def get_target_command (st : LnkState) : String :=
  if !st.parsed then ""
  else
    let out0 := ""
    let out1 :=
      if st.linkFlag.HasRelativePath then
        match st.strings.relativePath with
        | some r => out0 ++ r
        | none => out0
      else out0
    let out2 :=
      if st.linkFlag.HasArguments then
        match st.strings.commandLineArguments with
        | some a => out1 ++ " " ++ a
        | none => out1
      else out1
    pyStrip out2

/-- Embedding of `LnkForensics.get_timestamps` (an association list in the
source dict's key order; `{}` becomes `[]` when unparsed). -/
def get_timestamps (st : LnkState) : List (String × String) :=
  if !st.parsed then []
  else
    [("creation_time", ms_time_to_unix_time ((st.lnk_header.map (·.creation_time)).getD 0)),
     ("modified_time", ms_time_to_unix_time ((st.lnk_header.map (·.modified_time)).getD 0)),
     ("accessed_time", ms_time_to_unix_time ((st.lnk_header.map (·.accessed_time)).getD 0))]

/-- Embedding of `LnkForensics.get_machine_tracking`. -/
def get_machine_tracking (st : LnkState) : List (String × String) :=
  if !st.parsed then []
  else
    let t := st.extraBlocks.tracker
    [("machine_identifier", (t.map (·.machine_identifier)).getD ""),
     ("droid_volume_identifier", (t.map (·.droid_volume_identifier)).getD ""),
     ("droid_file_identifier", (t.map (·.droid_file_identifier)).getD ""),
     ("birth_droid_volume_identifier", (t.map (·.birth_droid_volume_identifier)).getD ""),
     ("birth_droid_file_identifier", (t.map (·.birth_droid_file_identifier)).getD "")]

/-- Embedding of `LnkForensics.get_network_info` (`none` is the empty
dict). -/
def get_network_info (st : LnkState) : Option NetworkInfo :=
  if !st.parsed then none else st.loc_information.network

/-- Embedding of `LnkForensics.get_volume_info`: the four candidate entries
with empty-string defaults, keeping only the truthy (non-empty) ones. -/
def get_volume_info (st : LnkState) : List (String × String) :=
  if !st.parsed then []
  else
    let vol := st.loc_information.volume
    ([("drive_type", ((vol.bind (·.DriveType)).getD "")),
      ("drive_serial", ((vol.map (·.DriveSerialNumber)).getD "")),
      ("volume_label", ((vol.bind (·.VolumeLabel)).getD "")),
      ("local_base_path", st.loc_information.localBasePath.getD "")]).filter
      (fun p => p.2 != "")

/-- Embedding of `LnkForensics.get_link_flags` (`none` is the empty dict;
otherwise the formatted raw word and the enabled-flag names). -/
def get_link_flags (st : LnkState) : Option (String × List String) :=
  if !st.parsed then none
  else some (fmt0x08X ((st.lnk_header.map (·.rlinkFlags)).getD 0),
             enabled_link_flags st.linkFlag)

/-- Embedding of `LnkForensics.get_file_attributes`. -/
def get_file_attributes (st : LnkState) : Option (String × List String) :=
  if !st.parsed then none
  else some (fmt0x08X ((st.lnk_header.map (·.rfileFlags)).getD 0),
             enabled_file_flags st.fileFlag)

/-- Embedding of `LnkForensics.get_target_info`. -/
def get_target_info (st : LnkState) : List (String × String) :=
  if !st.parsed then []
  else
    [("target_command", get_target_command st),
     ("description", st.strings.description.getD ""),
     ("relative_path", st.strings.relativePath.getD ""),
     ("working_directory", st.strings.workingDirectory.getD ""),
     ("command_line_arguments", st.strings.commandLineArguments.getD ""),
     ("icon_location", st.strings.iconLocation.getD "")]

/-! Concrete buffers used to exercise the parser. -/

/-- A 76-byte header whose link-flags word is `0x0000002C` and every other
field zero. -/
def bufFlags2C : List Nat :=
  [76, 0, 0, 0] ++ List.replicate 16 0 ++ [44, 0, 0, 0] ++ List.replicate 52 0

/-- Header with `HasRelativePath | HasArguments` (word `0x28`), followed by
the length-prefixed strings `"notepad.exe"` and `"/A test.txt"`. -/
def bufTargetCommand : List Nat :=
  [76, 0, 0, 0] ++ List.replicate 16 0 ++ [40, 0, 0, 0] ++ List.replicate 52 0 ++
  [11, 0] ++ [110, 111, 116, 101, 112, 97, 100, 46, 101, 120, 101] ++
  [11, 0] ++ [47, 65, 32, 116, 101, 115, 116, 46, 116, 120, 116]

/-- Header with `HasLinkInfo` (word `0x02`) followed by a 28-byte LinkInfo
header with flags bit 0 set and `VolumeIDOffset = 1000`, so decoding the
volume sub-structure fails after the seven header fields were stored. -/
def bufLocVolumeFail : List Nat :=
  [76, 0, 0, 0] ++ List.replicate 16 0 ++ [2, 0, 0, 0] ++ List.replicate 52 0 ++
  [28, 0, 0, 0, 28, 0, 0, 0, 1, 0, 0, 0, 232, 3, 0, 0,
   0, 0, 0, 0, 0, 0, 0, 0, 0, 0, 0, 0]

/-- Header with `HasLinkInfo` followed by a 28-byte LinkInfo header whose
flags word is zero: neither sub-shape is selected. -/
def bufLocFlagsZero : List Nat :=
  [76, 0, 0, 0] ++ List.replicate 16 0 ++ [2, 0, 0, 0] ++ List.replicate 52 0 ++
  [28, 0, 0, 0, 28, 0, 0, 0, 0, 0, 0, 0, 0, 0, 0, 0,
   0, 0, 0, 0, 0, 0, 0, 0, 0, 0, 0, 0]

/-- Header with `HasName | HasRelativePath` (word `0x0C`) followed by a
description whose declared length `0x7FFF` overruns the buffer, then the
bytes `01 00 41` that decode as the relative path `"A"`. -/
def bufOverlongName : List Nat :=
  [76, 0, 0, 0] ++ List.replicate 16 0 ++ [12, 0, 0, 0] ++ List.replicate 52 0 ++
  [255, 127] ++ [1, 0, 65]

/-- Twelve zero bytes: an extra-block region whose first declared block
size is 0. -/
def bufZeroBlock : List Nat := List.replicate 12 0

/-! Helper lemmas about the byte-cursor primitives. -/

/-- A Python slice only ever returns bytes of the underlying buffer. -/
lemma pySlice_sublist (data : List Nat) (a b : Int) : (pySlice data a b).Sublist data := by
  unfold pySlice
  exact (List.take_sublist _ _).trans (List.drop_sublist _ _)

/-- A Python index read only ever returns a byte of the buffer. -/
lemma pyGet_mem (data : List Nat) (i : Int) (v : Nat) (h : pyGet data i = some v) :
    v ∈ data := by
  unfold pyGet at h
  split at h
  · exact List.get?_mem h
  · split at h
    · exact List.get?_mem h
    · exact absurd h (by simp)

/-- Length of a slice whose endpoints lie inside the buffer. -/
lemma pySlice_length_of_le (data : List Nat) (a b : Int)
    (h0 : 0 ≤ a) (hab : a ≤ b) (hb : b ≤ (data.length : Int)) :
    (pySlice data a b).length = (b - a).toNat := by
  unfold pySlice pyBound
  have ha' : ¬ a < 0 := by omega
  have hb' : ¬ b < 0 := by omega
  simp only [ha', hb', if_false, List.length_take, List.length_drop]
  omega

/-- The fuel bound of the extra-block walk suffices: every iteration
advances the cursor by the declared size, which is at least 4. -/
lemma parse_extra_blocks_fuel_sufficient :
    ∀ (fuel : Nat) (data : List Nat) (index : Int) (blocks : ExtraBlocks),
      ((data.length : Int) - 10 - index + 4).toNat < fuel →
      (parse_extra_blocks_fuel fuel data index blocks).isSome = true := by
  intro fuel
  induction fuel with
  | zero => intro data index blocks h; omega
  | succ n ih =>
    intro data index blocks h
    rw [parse_extra_blocks_fuel]
    split
    · rename_i hguard
      cases hsz : unpackN 4 data index with
      | none => simp
      | some size =>
        simp only []
        split
        · simp
        · rename_i hsize
          cases hsig : unpackN 4 data (index + 4) with
          | none => simp
          | some sig => exact ih data (index + (size : Int)) _ (by omega)
    · simp

/-- Any two sufficient fuels compute the same extra-block walk result. -/
lemma parse_extra_blocks_fuel_irrel :
    ∀ (f g : Nat) (data : List Nat) (index : Int) (blocks : ExtraBlocks),
      ((data.length : Int) - 10 - index + 4).toNat < f →
      ((data.length : Int) - 10 - index + 4).toNat < g →
      parse_extra_blocks_fuel f data index blocks = parse_extra_blocks_fuel g data index blocks := by
  intro f
  induction f with
  | zero => intro g data index blocks hf hg; omega
  | succ n ih =>
    intro g data index blocks hf hg
    cases g with
    | zero => omega
    | succ m =>
      rw [parse_extra_blocks_fuel, parse_extra_blocks_fuel]
      split
      · rename_i hguard
        cases hsz : unpackN 4 data index with
        | none => rfl
        | some size =>
          simp only []
          split
          · rfl
          · rename_i hsize
            cases hsig : unpackN 4 data (index + 4) with
            | none => rfl
            | some sig => exact ih m data (index + (size : Int)) _ (by omega) (by omega)
      · rfl

/-- With `HasName` and `HasRelativePath` set, the relative path is always
the second length-prefixed read, taken from the cursor returned by the
description read — whatever the later flags are. -/
lemma parse_strings_relativePath (data : List Nat) (i : Int) (u : Nat) (lf : LinkFlags)
    (hN : lf.HasName = true) (hR : lf.HasRelativePath = true) :
    (parse_strings data i u lf).2.relativePath =
      some (read_string_data data (read_string_data data i u).1 u).2 := by
  simp only [parse_strings, hN, hR, if_true]
  split <;> split <;> split <;> rfl

/-! Claim theorems. -/

/-- C3 counterexample: for the 76-byte header whose link-flags word is
`0x2C` (decoded as the signed value 44), the claimed flag set
`{HasRelativePath, HasArguments, HasWorkingDir}` is wrong: `HasWorkingDir`
(mask `0x10`) is clear, while `HasName` (mask `0x04`) is set. -/
theorem link_flags_2C_refuted :
    ((parse bufFlags2C).lnk_header.map (fun h => h.rlinkFlags)) = some 44 ∧
    (parse bufFlags2C).linkFlag.HasWorkingDir = false ∧
    (parse bufFlags2C).linkFlag.HasName = true := by decide

/-- C3 amended: for a 76-byte header whose link-flags word equals
`0x0000002C`, the decoded link-flag set has exactly `HasName`,
`HasRelativePath` and `HasArguments` enabled and no other flag
(`0x2C = 0x04 + 0x08 + 0x20`). -/
theorem link_flags_2C_exact :
    enabled_link_flags (parse bufFlags2C).linkFlag =
      ["HasName", "HasRelativePath", "HasArguments"] ∧
    enabled_link_flags (parse_link_flags 44) =
      ["HasName", "HasRelativePath", "HasArguments"] := by decide

/-- C4 counterexample: for the out-of-range FILETIME `10^19` the conversion
returns the sentinel `"Invalid timestamp"` with a capital `I`, not the
claimed `"invalid timestamp"`. -/
theorem timestamp_sentinel_refuted :
    fromtimestampMax < (10000000000000000000 : Int) / 10000000 - 11644473600 ∧
    ms_time_to_unix_time 10000000000000000000 = "Invalid timestamp" ∧
    ms_time_to_unix_time 10000000000000000000 ≠ "invalid timestamp" := by decide

/-- C4 amended: the FILETIME value `132669792000000000`
(2021-06-01 00:00:00 UTC) converts to exactly `"2021-06-01 00:00:00"`, and
every FILETIME whose converted unix-seconds value falls outside the
`datetime` range yields the sentinel `"Invalid timestamp"` instead of an
exception escaping. -/
theorem timestamp_conversion_2021_and_sentinel :
    ms_time_to_unix_time 132669792000000000 = "2021-06-01 00:00:00" ∧
    ∀ t : Int,
      (t / 10000000 - 11644473600 < fromtimestampMin ∨
        fromtimestampMax < t / 10000000 - 11644473600) →
      ms_time_to_unix_time t = "Invalid timestamp" := by
  constructor
  · decide
  · intro t ht
    have hneg : ¬ (fromtimestampMin ≤ t / 10000000 - 11644473600 ∧
        t / 10000000 - 11644473600 ≤ fromtimestampMax) := by
      unfold fromtimestampMin fromtimestampMax at *
      omega
    unfold ms_time_to_unix_time
    rw [if_neg hneg]

/-- C4 witness: the sentinel branch of the amended theorem at the concrete
out-of-range FILETIME `2 * 10^19`. -/
theorem timestamp_sentinel_witness :
    ms_time_to_unix_time 20000000000000000000 = "Invalid timestamp" :=
  timestamp_conversion_2021_and_sentinel.2 20000000000000000000 (Or.inr (by decide))

/-- C2 counterexample: the empty raw-bytes buffer is falsy in the
constructor's input-source test, so construction raises the missing-input
error rather than reporting an invalid header. -/
theorem empty_raw_data_construction_error :
    lnkForensics_raw [] = Except.error "Must provide file_path, file_handle, or raw_data" ∧
    "Must provide file_path, file_handle, or raw_data" ≠
      "Parsing failed: Invalid LNK header: None" :=
  ⟨rfl, by decide⟩

/-- C1: for every buffer shorter than 76 bytes, and for every buffer whose
first 4 bytes do not decode (little-endian) to 76, the header decoder
returns failure, the overall parse raises the invalid-header error, and
every accessor gated on parse success returns its empty/default value. -/
theorem invalid_header_rejected (data : List Nat)
    (h : data.length < 76 ∨ leNat (pySlice data 0 4) ≠ 76) :
    parse_lnk_header data = none ∧
    (parse data).parsed = false ∧
    (parse data).raised = some "Parsing failed: Invalid LNK header: None" ∧
    is_valid (parse data) = false ∧
    get_target_command (parse data) = "" ∧
    get_timestamps (parse data) = [] ∧
    get_machine_tracking (parse data) = [] ∧
    get_network_info (parse data) = none ∧
    get_volume_info (parse data) = [] ∧
    get_link_flags (parse data) = none ∧
    get_file_attributes (parse data) = none ∧
    get_target_info (parse data) = [] := by
  have hnone : parse_lnk_header data = none := by
    unfold parse_lnk_header
    rcases h with h | h
    · simp [h]
    · by_cases hlen : data.length < 76
      · simp [hlen]
      · simp [hlen, h]
  refine ⟨hnone, ?_⟩
  simp [parse, hnone, is_valid, get_target_command, get_timestamps,
    get_machine_tracking, get_network_info, get_volume_info, get_link_flags,
    get_file_attributes, get_target_info]

/-- C1 witness: the empty buffer is shorter than 76 bytes and every gated
accessor returns its default on it. -/
theorem invalid_header_rejected_witness :
    parse_lnk_header ([] : List Nat) = none ∧
    (parse []).parsed = false ∧
    (parse []).raised = some "Parsing failed: Invalid LNK header: None" ∧
    is_valid (parse []) = false ∧
    get_target_command (parse []) = "" ∧
    get_timestamps (parse []) = [] ∧
    get_machine_tracking (parse []) = [] ∧
    get_network_info (parse []) = none ∧
    get_volume_info (parse []) = [] ∧
    get_link_flags (parse []) = none ∧
    get_file_attributes (parse []) = none ∧
    get_target_info (parse []) = [] :=
  invalid_header_rejected [] (Or.inl (by decide))

/-- C2 amended: primitive reads never leave the buffer (slices return
sublists of the buffer, index reads return members of the buffer), and for
every non-empty buffer — in particular every non-empty truncated prefix of
a valid LNK file — construction either raises the invalid-header error or
returns a fully parsed record over exactly the supplied bytes.  The empty
buffer instead raises the missing-input construction error
(`empty_raw_data_construction_error`). -/
theorem prefix_parse_in_bounds_total (data : List Nat) (hne : data ≠ []) :
    (∀ a b : Int, (pySlice data a b).Sublist data) ∧
    (∀ (i : Int) (v : Nat), pyGet data i = some v → v ∈ data) ∧
    ((∃ st, lnkForensics_raw data = Except.ok st ∧ st.parsed = true ∧ st.indata = data) ∨
      lnkForensics_raw data = Except.error "Parsing failed: Invalid LNK header: None") := by
  refine ⟨fun a b => pySlice_sublist data a b, fun i v h => pyGet_mem data i v h, ?_⟩
  unfold lnkForensics_raw
  rw [if_neg hne]
  cases hh : parse_lnk_header data with
  | none =>
    right
    simp only [parse, hh]
  | some hdr =>
    left
    exact ⟨parse data, by simp [parse, hh], by simp [parse, hh], by simp [parse, hh]⟩

/-- C2 witness: the in-bounds slice property at the one-byte buffer. -/
theorem prefix_parse_in_bounds_total_witness :
    (pySlice [0] 0 1).Sublist [0] :=
  (prefix_parse_in_bounds_total [0] (by decide)).1 0 1

/-- C5 counterexample: on `bufLocVolumeFail` the volume sub-structure
decode raises mid-region (its unpack fails at offset 1076 of a 104-byte
buffer), the parse still succeeds, but the LocationInfo region is NOT
empty: the seven already-assigned header fields remain populated. -/
theorem location_region_not_emptied :
    parse_volume_id bufLocVolumeFail 1076 = none ∧
    (parse bufLocVolumeFail).parsed = true ∧
    (parse bufLocVolumeFail).loc_information.header.isSome = true ∧
    (parse bufLocVolumeFail).loc_information ≠ ({} : LocInfo) ∧
    (parse bufLocVolumeFail).loc_information.volume = none ∧
    (parse bufLocVolumeFail).loc_information.network = none := by decide

/-- C5 amended: any failure while decoding the LocationInfo region is
caught at the region boundary and the overall parse still succeeds; a
failure before the seven header fields are assigned leaves the region empty
with the cursor unchanged, while a later failure (for example a failing
volume decode) keeps the already-assigned header fields and still leaves
the cursor unchanged — the region is not always emptied. -/
theorem location_failure_caught_parse_succeeds :
    (∀ data : List Nat, parse_lnk_header data ≠ none →
      (parse data).parsed = true ∧ (parse data).raised = none) ∧
    (∀ (data : List Nat) (index : Int), parse_loc_header data index = none →
      parse_link_info data index = ({}, index)) ∧
    (∀ (data : List Nat) (index : Int) (h : LocHeader),
      parse_loc_header data index = some h → bitf h.LinkInfoFlags 1 = true →
      h.LocalBasePathOffset = 0 →
      parse_volume_id data (index + h.VolumeIDOffset) = none →
      parse_link_info data index = ({ header := some h }, index)) := by
  refine ⟨?_, ?_, ?_⟩
  · intro data hne
    cases hh : parse_lnk_header data with
    | none => exact absurd hh hne
    | some hdr => exact ⟨by simp [parse, hh], by simp [parse, hh]⟩
  · intro data index hnone
    unfold parse_link_info
    rw [hnone]
  · intro data index h hsome hbit hlbp hvol
    have hlbpr : local_base_path_read data index h = some none := by
      unfold local_base_path_read
      simp [hlbp]
    unfold parse_link_info
    rw [hsome]
    simp only [hbit, if_true, hlbpr, hvol]

/-- C5 witness: the parse of `bufLocVolumeFail` succeeds even though its
LocationInfo volume decode fails. -/
theorem location_failure_caught_witness :
    (parse bufLocVolumeFail).parsed = true :=
  (location_failure_caught_parse_succeeds.1 bufLocVolumeFail (by decide)).1

/-- C6 counterexample: on `bufOverlongName` the description read fails (its
declared span `0x7FFF` exceeds the 81-byte buffer), yet the relative path —
a later field — is still decoded, to the non-empty string `"A"`: a failing
field does not leave the remaining fields undecoded. -/
theorem string_failure_later_fields_decoded :
    read_string_data bufOverlongName 76 1 = (78, "") ∧
    (bufOverlongName.length : Int) < 76 + 2 + ((leNat (pySlice bufOverlongName 76 78) * 1 : Nat) : Int) ∧
    (parse bufOverlongName).strings.description = some "" ∧
    (parse bufOverlongName).strings.relativePath = some "A" := by decide

/-- C6 amended: the five optional strings are read in the fixed order
description, relative path, working directory, arguments, icon location,
each gated by its own flag and threading one shared cursor; a field whose
2-byte length prefix already falls outside the buffer yields the empty
string with the cursor unmoved, and in every failure case the remaining
fields are still attempted from the resulting cursor — the section never
aborts the parse. -/
theorem string_section_order_and_continuation (data : List Nat) (u : Nat) :
    (∀ (i : Int) (lf : LinkFlags), lf.HasName = true → lf.HasRelativePath = true →
      lf.HasWorkingDir = true → lf.HasArguments = true → lf.HasIconLocation = true →
      parse_strings data i u lf =
        ((read_string_data data
            (read_string_data data
              (read_string_data data
                (read_string_data data (read_string_data data i u).1 u).1 u).1 u).1 u).1,
         { description := some (read_string_data data i u).2,
           relativePath := some (read_string_data data (read_string_data data i u).1 u).2,
           workingDirectory := some (read_string_data data
             (read_string_data data (read_string_data data i u).1 u).1 u).2,
           commandLineArguments := some (read_string_data data
             (read_string_data data
               (read_string_data data (read_string_data data i u).1 u).1 u).1 u).2,
           iconLocation := some (read_string_data data
             (read_string_data data
               (read_string_data data
                 (read_string_data data (read_string_data data i u).1 u).1 u).1 u).1 u).2 })) ∧
    (∀ j : Int, (data.length : Int) < j + 2 → read_string_data data j u = (j, "")) := by
  constructor
  · intro i lf h1 h2 h3 h4 h5
    simp only [parse_strings, h1, h2, h3, h4, h5, if_true]
  · intro j hj
    unfold read_string_data
    rw [if_pos (by omega)]

/-- C6 witness: the five-field chain of the amended theorem on the empty
buffer, where every read fails and every field becomes the empty string. -/
theorem string_section_order_witness :
    parse_strings ([] : List Nat) 0 1 (parse_link_flags 124) =
      (0, { description := some "", relativePath := some "",
            workingDirectory := some "", commandLineArguments := some "",
            iconLocation := some "" }) := by
  have h := (string_section_order_and_continuation [] 1).1 0 (parse_link_flags 124)
    (by decide) (by decide) (by decide) (by decide) (by decide)
  rw [h]
  decide

/-- C7: the extra-block walk terminates on every buffer — its step-indexed
form completes within fuel linear in the buffer length (last conjunct) —
and satisfies the loop contract: it stops as soon as fewer than 10 bytes
remain past the cursor, halts immediately on a declared size below 4, and
otherwise advances the cursor by exactly the declared size whether or not
the signature was recognized. -/
theorem extra_block_walk_spec (data : List Nat) (index : Int) (blocks : ExtraBlocks) :
    ((data.length : Int) - 10 < index → parse_extra_blocks data index blocks = blocks) ∧
    (∀ size : Nat, index ≤ (data.length : Int) - 10 → unpackN 4 data index = some size →
      size < 4 → parse_extra_blocks data index blocks = blocks) ∧
    (∀ size sig : Nat, index ≤ (data.length : Int) - 10 → unpackN 4 data index = some size →
      4 ≤ size → unpackN 4 data (index + 4) = some sig →
      parse_extra_blocks data index blocks =
        parse_extra_blocks data (index + (size : Int))
          (dispatch_block data index size sig blocks)) ∧
    (parse_extra_blocks_fuel (extra_blocks_fuel_bound data index) data index blocks).isSome
      = true := by
  refine ⟨?_, ?_, ?_, ?_⟩
  · intro hgt
    unfold parse_extra_blocks extra_blocks_fuel_bound
    rw [parse_extra_blocks_fuel, if_neg (by omega)]
    rfl
  · intro size hle hsz hlt
    unfold parse_extra_blocks extra_blocks_fuel_bound
    rw [parse_extra_blocks_fuel, if_pos (by omega), hsz]
    simp only [if_pos hlt]
    rfl
  · intro size sig hle hsz hge hsig
    have hstep :
        parse_extra_blocks_fuel (extra_blocks_fuel_bound data index) data index blocks =
          parse_extra_blocks_fuel (((data.length : Int) - 10 - index + 4).toNat) data
            (index + (size : Int)) (dispatch_block data index size sig blocks) := by
      unfold extra_blocks_fuel_bound
      rw [parse_extra_blocks_fuel]
      simp only [hsz, hsig, if_pos (show index ≤ (data.length : Int) - 10 from hle),
        if_neg (show ¬ size < 4 from by omega)]
    have hbound : ((data.length : Int) - 10 - (index + (size : Int)) + 4).toNat <
        ((data.length : Int) - 10 - index + 4).toNat := by omega
    have hswap := parse_extra_blocks_fuel_irrel
      (((data.length : Int) - 10 - index + 4).toNat)
      (extra_blocks_fuel_bound data (index + (size : Int))) data (index + (size : Int))
      (dispatch_block data index size sig blocks) hbound
      (by unfold extra_blocks_fuel_bound; omega)
    have hsomeR := parse_extra_blocks_fuel_sufficient
      (extra_blocks_fuel_bound data (index + (size : Int))) data (index + (size : Int))
      (dispatch_block data index size sig blocks)
      (by unfold extra_blocks_fuel_bound; omega)
    unfold parse_extra_blocks
    rw [hstep, hswap]
    obtain ⟨r, hr⟩ := Option.isSome_iff_exists.mp hsomeR
    rw [hr]
    rfl
  · exact parse_extra_blocks_fuel_sufficient _ data index blocks
      (by unfold extra_blocks_fuel_bound; omega)

/-- C7 witness: on twelve zero bytes the walk starts with at least 10 bytes
remaining, reads a declared size of 0, and halts immediately with the
blocks dict unchanged. -/
theorem extra_block_walk_zero_size_witness :
    parse_extra_blocks bufZeroBlock 0 {} = {} :=
  (extra_block_walk_spec bufZeroBlock 0 {}).2.1 0 (by decide) (by decide) (by decide)

/-- C8: `get_target_command` on the concrete buffer with relative path
`"notepad.exe"` and arguments `"/A test.txt"` returns
`"notepad.exe /A test.txt"`; in general, on any parsed state with both
fields flagged and present, it returns the relative path concatenated with
a single space and the arguments, stripped of surrounding whitespace. -/
theorem target_command_concat :
    get_target_command (parse bufTargetCommand) = "notepad.exe /A test.txt" ∧
    ∀ (st : LnkState) (r a : String), st.parsed = true →
      st.linkFlag.HasRelativePath = true → st.strings.relativePath = some r →
      st.linkFlag.HasArguments = true → st.strings.commandLineArguments = some a →
      get_target_command st = pyStrip (r ++ " " ++ a) := by
  constructor
  · decide
  · intro st r a hp hrel hr harg ha
    simp only [get_target_command, hp, hrel, hr, harg, ha]
    rfl

/-- C8 witness: the general concatenation shape applied at the concrete
parsed buffer. -/
theorem target_command_concat_witness :
    get_target_command (parse bufTargetCommand) = pyStrip ("notepad.exe" ++ " " ++ "/A test.txt") :=
  target_command_concat.2 (parse bufTargetCommand) "notepad.exe" "/A test.txt"
    (by decide) (by decide) (by decide) (by decide) (by decide)

/-- C9 counterexample: on `bufLocFlagsZero` the LocationInfo region is
decoded (its header fields are populated) with a flags word of zero, and
NEITHER sub-shape is populated — refuting that exactly one is populated for
every value of the flags word. -/
theorem location_subshape_neither :
    (parse bufLocFlagsZero).loc_information.header.isSome = true ∧
    (parse bufLocFlagsZero).loc_information.volume = none ∧
    (parse bufLocFlagsZero).loc_information.network = none := by decide

/-- C9 amended: at most one of the two sub-shapes is ever populated —
VolumeInfo only when bit 0 of the flags word is set (regardless of bit 1),
NetworkShareInfo only when bit 0 is clear and bit 1 is set; when neither
bit is set, or the selected sub-shape's decode fails, neither is
populated. -/
theorem location_subshape_at_most_one (data : List Nat) (index : Int) :
    (¬ ((parse_link_info data index).1.volume.isSome = true ∧
        (parse_link_info data index).1.network.isSome = true)) ∧
    ((parse_link_info data index).1.volume.isSome = true →
      ∃ h, (parse_link_info data index).1.header = some h ∧
        bitf h.LinkInfoFlags 1 = true) ∧
    ((parse_link_info data index).1.network.isSome = true →
      ∃ h, (parse_link_info data index).1.header = some h ∧
        bitf h.LinkInfoFlags 1 = false ∧ bitf h.LinkInfoFlags 2 = true) := by
  obtain ⟨loc, i2, hP⟩ : ∃ loc i2, parse_link_info data index = (loc, i2) :=
    ⟨(parse_link_info data index).1, (parse_link_info data index).2, rfl⟩
  rw [hP]
  unfold parse_link_info at hP
  split at hP
  · injection hP with hA hB
    subst hA
    simp
  · rename_i h hh
    split at hP
    · rename_i h1
      split at hP
      · injection hP with hA hB
        subst hA
        simp
      · split at hP
        · injection hP with hA hB
          subst hA
          simp
        · injection hP with hA hB
          subst hA
          refine ⟨by simp, fun _ => ⟨h, rfl, h1⟩, by simp⟩
    · rename_i h1
      split at hP
      · rename_i h2
        split at hP
        · injection hP with hA hB
          subst hA
          simp
        · injection hP with hA hB
          subst hA
          refine ⟨by simp, by simp, fun _ => ⟨h, rfl, by simpa using h1, h2⟩⟩
      · injection hP with hA hB
        subst hA
        simp

/-- C9 witness: the at-most-one property at the concrete region of
`bufLocFlagsZero`. -/
theorem location_subshape_witness :
    ¬ ((parse_link_info bufLocFlagsZero 76).1.volume.isSome = true ∧
       (parse_link_info bufLocFlagsZero 76).1.network.isSome = true) :=
  (location_subshape_at_most_one bufLocFlagsZero 76).1

/-- C10: when the 16-bit length prefix read at a valid in-buffer offset
declares a span (scaled by the Unicode multiplier) that overruns the
buffer, `_read_string_data` returns the empty string and advances the
cursor by exactly 2 bytes — past the prefix only — so a later flag-gated
field is decoded starting at those 2 bytes past the prefix, inside the
overlong field's declared span, not after it and not skipped. -/
theorem read_string_data_overlong (data : List Nat) (i : Int) (u : Nat)
    (h0 : 0 ≤ i) (h1 : i + 2 ≤ (data.length : Int))
    (h2 : (data.length : Int) < i + 2 + ((leNat (pySlice data i (i + 2)) * u : Nat) : Int)) :
    read_string_data data i u = (i + 2, "") ∧
    (∀ lf : LinkFlags, lf.HasName = true → lf.HasRelativePath = true →
      (parse_strings data i u lf).2.relativePath =
        some (read_string_data data (i + 2) u).2) := by
  have hlen : (pySlice data i (i + 2)).length = 2 := by
    rw [pySlice_length_of_le data i (i + 2) h0 (by omega) h1]
    omega
  have hup : unpackN 2 data i = some (leNat (pySlice data i (i + 2))) := by
    unfold unpackN
    simp only [Nat.cast_ofNat]
    rw [if_pos hlen]
  have hfirst : read_string_data data i u = (i + 2, "") := by
    unfold read_string_data
    rw [if_neg (by omega)]
    simp only [hup]
    rw [if_pos]
    exact h2
  refine ⟨hfirst, ?_⟩
  intro lf hN hR
  rw [parse_strings_relativePath data i u lf hN hR, hfirst]

/-- C10 witness: a 3-byte buffer whose prefix declares 32767 bytes; the
read consumes only the 2 prefix bytes and yields the empty string. -/
theorem read_string_data_overlong_witness :
    read_string_data [255, 127, 9] 0 1 = (2, "") :=
  (read_string_data_overlong [255, 127, 9] 0 1 (by decide) (by decide) (by decide)).1

end LnkForensics
